import Mathlib

/-!
Verification of the ESP32 OTA update engine (`src/main.cpp`).

The embedding models the two functions that carry the update logic:

* `performFirmwareUpdate` — downloads the firmware binary and streams it to
  flash (`src/main.cpp` lines 35–86);
* `ota_task` — the periodic version-check loop (`src/main.cpp` lines 103–138);
  one iteration of its infinite `for (;;)` body is `ota_task_cycle`, and the
  loop itself is the recursion `cycleRuns`.

The external world (HTTP responses and the behaviour of the `Update`
library) is an explicit environment record; every call the code makes
(`Update.begin`, `Update.writeStream`, `Update.end`, `ESP.restart`) and
every log line of interest is recorded in the result of the function, so
that temporal claims ("X is called only after Y succeeded") become
propositions about that record.
-/

namespace ESP32OTA

/-- Whitespace predicate of C `isspace`, which Arduino `String::trim`
uses to strip both ends of the string. -/
def isSpaceChar (c : Char) : Bool :=
  c = ' ' || c = '\t' || c = '\n' || Char.ofNat 11 = c || Char.ofNat 12 = c || c = '\r'

/-- `String::trim` on the underlying character list: drop whitespace from
the front, then from the back. -/
def trimList (l : List Char) : List Char :=
  ((l.dropWhile isSpaceChar).reverse.dropWhile isSpaceChar).reverse

/-- Arduino `String::trim` (in-place in C++; functional here). -/
def trimString (s : String) : String :=
  String.mk (trimList s.data)

/-- `HTTP_CODE_OK` from `HTTPClient.h`. -/
def HTTP_CODE_OK : Int := 200

/-- The three cache-defeating request headers added by `http.addHeader`
before each GET (`src/main.cpp` lines 42–44 and 112–114). -/
def cacheHeaders : List (String × String) :=
  [("Cache-Control", "no-cache, no-store, must-revalidate"),
   ("Pragma", "no-cache"),
   ("Expires", "0")]

/-- Responses of the outside world to one run of `performFirmwareUpdate`:
the firmware GET's status code and reported size, and the answers of the
`Update` library (`begin`, the byte count of `writeStream`, `end`,
`isFinished`). -/
structure FirmwareEnv where
  httpCode : Int
  contentLength : Int
  canBegin : Bool
  written : Nat
  endOk : Bool
  isFinished : Bool
deriving Repr, DecidableEq

/-- The branch on which one run of `performFirmwareUpdate` ends, named
after the source branch that produces it. -/
inductive UpdateOutcome where
  /-- `httpCode != HTTP_CODE_OK`: "Firmware download failed" (line 83). -/
  | httpFailed
  /-- `contentLength <= 0`: "Content length is zero, skipping update" (line 80). -/
  | zeroLength
  /-- `Update.begin` returned false: "Not enough space to begin OTA" (line 77). -/
  | insufficientSpace
  /-- `Update.end()` returned false: "Error occurred" with `Update.getError()` (line 74). -/
  | finalizeFailed
  /-- `Update.end()` true but `Update.isFinished()` false: "Update not finished" (line 71). -/
  | notFinished
  /-- `Update.end()` and `Update.isFinished()` both true: restart (line 69). -/
  | success
deriving Repr, DecidableEq

/-- The spec's `DownloadFailed` error kind (§7): binary fetch status error
or non-positive reported size. -/
def UpdateOutcome.isDownloadFailed : UpdateOutcome → Bool
  | .httpFailed => true
  | .zeroLength => true
  | _ => false

/-- Observable trace of one run of `performFirmwareUpdate`: the request
headers it sent and which calls and log lines happened. -/
structure UpdateRun where
  /-- Headers added to the firmware GET request. -/
  headersSent : List (String × String)
  /-- `Update.begin(contentLength)` was called. -/
  beginCalled : Bool
  /-- `Update.writeStream(stream)` was called. -/
  writeCalled : Bool
  /-- The "Wrote only: w/n bytes. Error!" line was printed (line 62). -/
  shortfallLogged : Bool
  /-- `Update.end()` was called. -/
  endCalled : Bool
  /-- The numeric `Update.getError()` code was printed (line 74). -/
  diagnosticLogged : Bool
  /-- `ESP.restart()` was called. -/
  restartCalled : Bool
  outcome : UpdateOutcome
deriving Repr, DecidableEq

/-- Shallow embedding of `performFirmwareUpdate` (`src/main.cpp` 35–86).
The nested conditionals mirror the source: status check, positive
content length, `Update.begin`, `Update.writeStream` (whose count is
compared with `contentLength` for logging only), `Update.end`,
`Update.isFinished`, and `ESP.restart` on full success. -/
def performFirmwareUpdate (env : FirmwareEnv) : UpdateRun :=
  if env.httpCode = HTTP_CODE_OK then
    if 0 < env.contentLength then
      if env.canBegin then
        let shortfall := !((env.written : Int) == env.contentLength)
        if env.endOk then
          if env.isFinished then
            { headersSent := cacheHeaders, beginCalled := true, writeCalled := true,
              shortfallLogged := shortfall, endCalled := true, diagnosticLogged := false,
              restartCalled := true, outcome := .success }
          else
            { headersSent := cacheHeaders, beginCalled := true, writeCalled := true,
              shortfallLogged := shortfall, endCalled := true, diagnosticLogged := false,
              restartCalled := false, outcome := .notFinished }
        else
          { headersSent := cacheHeaders, beginCalled := true, writeCalled := true,
            shortfallLogged := shortfall, endCalled := true, diagnosticLogged := true,
            restartCalled := false, outcome := .finalizeFailed }
      else
        { headersSent := cacheHeaders, beginCalled := true, writeCalled := false,
          shortfallLogged := false, endCalled := false, diagnosticLogged := false,
          restartCalled := false, outcome := .insufficientSpace }
    else
      { headersSent := cacheHeaders, beginCalled := false, writeCalled := false,
        shortfallLogged := false, endCalled := false, diagnosticLogged := false,
        restartCalled := false, outcome := .zeroLength }
  else
    { headersSent := cacheHeaders, beginCalled := false, writeCalled := false,
      shortfallLogged := false, endCalled := false, diagnosticLogged := false,
      restartCalled := false, outcome := .httpFailed }

/-- Responses of the outside world to one iteration of the `ota_task`
loop: the version GET's status code and body, and the firmware-fetch
environment used if `performFirmwareUpdate` is reached. -/
structure CycleEnv where
  versionCode : Int
  body : String
  fw : FirmwareEnv
deriving Repr, DecidableEq

/-- How one iteration of the `ota_task` loop ends. -/
inductive CheckOutcome where
  /-- version GET status not OK: "Version check failed" (line 131). -/
  | checkFailed
  /-- trimmed remote token equals `currentVersion`: "Firmware is up to date" (line 124). -/
  | upToDate
  /-- tokens differ: `performFirmwareUpdate()` was called and ran as recorded. -/
  | updateStarted (run : UpdateRun)
deriving Repr, DecidableEq

/-- Observable trace of one iteration of the `ota_task` loop. -/
structure CycleRun where
  /-- Headers added to the version GET request. -/
  versionHeadersSent : List (String × String)
  /-- `performFirmwareUpdate()` was called. -/
  downloadAttempted : Bool
  /-- `ESP.restart()` was called (inside `performFirmwareUpdate`). -/
  restartCalled : Bool
  outcome : CheckOutcome
deriving Repr, DecidableEq

/-- Shallow embedding of one iteration of the `for (;;)` body of
`ota_task` (`src/main.cpp` 105–137): GET the version file with the cache
headers; on OK, trim the body and compare it (`String::equals`, exact and
case-sensitive) with the untrimmed `currentVersion`; on mismatch run
`performFirmwareUpdate`. -/
def ota_task_cycle (currentVersion : String) (env : CycleEnv) : CycleRun :=
  if env.versionCode = HTTP_CODE_OK then
    let remoteVersion := trimString env.body
    if remoteVersion = currentVersion then
      { versionHeadersSent := cacheHeaders, downloadAttempted := false,
        restartCalled := false, outcome := .upToDate }
    else
      let r := performFirmwareUpdate env.fw
      { versionHeadersSent := cacheHeaders, downloadAttempted := true,
        restartCalled := r.restartCalled, outcome := .updateStarted r }
  else
    { versionHeadersSent := cacheHeaders, downloadAttempted := false,
      restartCalled := false, outcome := .checkFailed }

/-- `updateInterval` (`src/main.cpp` line 24): the fixed delay passed to
`vTaskDelay` between iterations. -/
def updateInterval : Nat := 30000

/-- `ESP.restart()` terminates the process, so iteration `n+1` of the
`ota_task` loop runs exactly when every earlier iteration ran without
restarting.  `envs n` is the world's response to iteration `n`. -/
def cycleRuns (currentVersion : String) (envs : Nat → CycleEnv) : Nat → Bool
  | 0 => true
  | n + 1 =>
      cycleRuns currentVersion envs n &&
        !(ota_task_cycle currentVersion (envs n)).restartCalled

/-- The cycle ended with a successful finalize (the only branch that
restarts). -/
def CycleRun.finalizeSucceeded (r : CycleRun) : Bool :=
  match r.outcome with
  | .updateStarted u => u.outcome = .success
  | _ => false

/-- A string carrying surrounding whitespace: nonempty with a whitespace
first or last character. -/
def hasSurroundingWhitespace (s : String) : Bool :=
  match s.data.head?, s.data.getLast? with
  | some a, some b => isSpaceChar a || isSpaceChar b
  | _, _ => false

/-! ### Helper lemmas -/

/-- The head of `dropWhile p l`, when present, does not satisfy `p`. -/
theorem head?_dropWhile_neg {α : Type} (p : α → Bool) :
    ∀ (l : List α) (x : α), (l.dropWhile p).head? = some x → p x = false := by
  intro l
  induction l with
  | nil => intro x h; simp [List.dropWhile] at h
  | cons a t ih =>
      intro x h
      rw [List.dropWhile_cons] at h
      by_cases hp : p a = true
      · rw [if_pos hp] at h
        exact ih x h
      · rw [if_neg hp] at h
        simp only [List.head?_cons, Option.some.injEq] at h
        subst h
        exact Bool.not_eq_true _ |>.mp hp

/-- `dropWhile` keeps the last element of the list, when its result is
nonempty. -/
theorem getLast?_dropWhile {α : Type} (p : α → Bool) :
    ∀ l : List α, l.dropWhile p ≠ [] → (l.dropWhile p).getLast? = l.getLast? := by
  intro l
  induction l with
  | nil => intro h; simp [List.dropWhile] at h
  | cons a t ih =>
      intro h
      rw [List.dropWhile_cons]
      by_cases hp : p a = true
      · rw [List.dropWhile_cons, if_pos hp] at h
        rw [if_pos hp, ih h]
        cases t with
        | nil => simp [List.dropWhile] at h
        | cons b u => exact (List.getLast?_cons_cons).symm
      · rw [if_neg hp]

/-- The first character of a trimmed list is not whitespace. -/
theorem trimList_head (l : List Char) (x : Char) :
    (trimList l).head? = some x → isSpaceChar x = false := by
  intro h
  unfold trimList at h
  rw [List.head?_reverse] at h
  have hne : (l.dropWhile isSpaceChar).reverse.dropWhile isSpaceChar ≠ [] := by
    intro hnil
    rw [hnil] at h
    simp at h
  rw [getLast?_dropWhile isSpaceChar _ hne, List.getLast?_reverse] at h
  exact head?_dropWhile_neg isSpaceChar l x h

/-- The last character of a trimmed list is not whitespace. -/
theorem trimList_getLast (l : List Char) (x : Char) :
    (trimList l).getLast? = some x → isSpaceChar x = false := by
  intro h
  unfold trimList at h
  rw [List.getLast?_reverse] at h
  exact head?_dropWhile_neg isSpaceChar _ x h

/-- A string with surrounding whitespace is never the result of a trim. -/
theorem trimString_ne_of_surrounding (cur : String)
    (hcur : hasSurroundingWhitespace cur = true) (r : String) :
    trimString r ≠ cur := by
  intro he
  have hdata : trimList r.data = cur.data := congrArg String.data he
  unfold hasSurroundingWhitespace at hcur
  rw [← hdata] at hcur
  rcases hh : (trimList r.data).head? with _ | a
  · rw [hh] at hcur; simp at hcur
  rcases hl : (trimList r.data).getLast? with _ | b
  · rw [hh, hl] at hcur; simp at hcur
  rw [hh, hl] at hcur
  simp only [Bool.or_eq_true] at hcur
  rcases hcur with hs | hs
  · rw [trimList_head r.data a hh] at hs; exact Bool.false_ne_true hs
  · rw [trimList_getLast r.data b hl] at hs; exact Bool.false_ne_true hs

/-- `ESP.restart()` is reached exactly on the `success` branch of
`performFirmwareUpdate`. -/
theorem performFirmwareUpdate_restart_iff (env : FirmwareEnv) :
    (performFirmwareUpdate env).restartCalled = true ↔
      (performFirmwareUpdate env).outcome = .success := by
  unfold performFirmwareUpdate
  split_ifs <;> simp

/-- A cycle restarts exactly when it ends with a successful finalize. -/
theorem ota_task_cycle_restart_iff (cur : String) (env : CycleEnv) :
    (ota_task_cycle cur env).restartCalled = true ↔
      (ota_task_cycle cur env).finalizeSucceeded = true := by
  unfold ota_task_cycle CycleRun.finalizeSucceeded
  by_cases h1 : env.versionCode = HTTP_CODE_OK <;>
    by_cases h2 : trimString env.body = cur <;>
      simp [h1, h2, performFirmwareUpdate_restart_iff]

/-! ### Claim theorems -/

/-- Claim C1: in every run of `performFirmwareUpdate`, `ESP.restart()` is
called if and only if the finalize step reports success — `Update.end()`
was reached and returned true and `Update.isFinished()` confirmed — and a
restart never occurs on any failure branch (HTTP failure, zero length,
insufficient space, failed finalize, or unfinished update). -/
theorem restart_iff_finalize_success (env : FirmwareEnv) :
    ((performFirmwareUpdate env).restartCalled = true ↔
      (performFirmwareUpdate env).endCalled = true ∧
        env.endOk = true ∧ env.isFinished = true) ∧
    ((performFirmwareUpdate env).outcome ≠ .success →
      (performFirmwareUpdate env).restartCalled = false) := by
  unfold performFirmwareUpdate
  split_ifs <;> simp_all

/-- Witness for C1 at a concrete environment on the success path. -/
theorem restart_iff_finalize_success_witness :
    (performFirmwareUpdate ⟨200, 500000, true, 500000, true, true⟩).restartCalled = true :=
  (restart_iff_finalize_success ⟨200, 500000, true, 500000, true, true⟩).1.mpr
    (by decide)

/-- Claim C2: with the version GET returning OK, `performFirmwareUpdate`
is called if and only if the trimmed remote token differs from the local
current version; on equality no download is attempted and the cycle ends
`upToDate`. -/
theorem update_gated_by_version (cur : String) (env : CycleEnv)
    (hok : env.versionCode = HTTP_CODE_OK) :
    ((ota_task_cycle cur env).downloadAttempted = true ↔ trimString env.body ≠ cur) ∧
    (trimString env.body = cur →
      (ota_task_cycle cur env).downloadAttempted = false ∧
      (ota_task_cycle cur env).outcome = .upToDate) := by
  unfold ota_task_cycle
  rw [if_pos hok]
  by_cases h2 : trimString env.body = cur <;> simp [h2]

/-- Witness for C2: remote "1.0" against current "1.0" ends up to date. -/
theorem update_gated_by_version_witness :
    (ota_task_cycle "1.0" ⟨200, "1.0", ⟨404, 0, false, 0, false, false⟩⟩).outcome =
      .upToDate :=
  ((update_gated_by_version "1.0" ⟨200, "1.0", ⟨404, 0, false, 0, false, false⟩⟩
      (by decide)).2 (by decide)).2

/-- Claim C3: a binary fetch answered OK but with non-positive reported
content length ends the attempt on the zero-length branch — classified
`DownloadFailed` by the spec's taxonomy — and `Update.begin` is never
called (nor any later flash operation). -/
theorem zero_length_aborts_before_flash (env : FirmwareEnv)
    (hok : env.httpCode = HTTP_CODE_OK) (hlen : env.contentLength ≤ 0) :
    (performFirmwareUpdate env).outcome = .zeroLength ∧
    ((performFirmwareUpdate env).outcome).isDownloadFailed = true ∧
    (performFirmwareUpdate env).beginCalled = false ∧
    (performFirmwareUpdate env).writeCalled = false ∧
    (performFirmwareUpdate env).endCalled = false := by
  unfold performFirmwareUpdate
  rw [if_pos hok, if_neg (by omega)]
  simp [UpdateOutcome.isDownloadFailed]

/-- Witness for C3 at declared size 0. -/
theorem zero_length_aborts_before_flash_witness :
    (performFirmwareUpdate ⟨200, 0, true, 0, true, true⟩).beginCalled = false :=
  (zero_length_aborts_before_flash ⟨200, 0, true, 0, true, true⟩
      (by decide) (by decide)).2.2.1

/-- Claim C4: `Update.end` is invoked only when `Update.begin` was called
and returned success in the same cycle; when `begin` fails, neither
`writeStream` nor `end` is called and the cycle ends `insufficientSpace`. -/
theorem finalize_requires_begin (env : FirmwareEnv) :
    ((performFirmwareUpdate env).endCalled = true →
      (performFirmwareUpdate env).beginCalled = true ∧ env.canBegin = true) ∧
    (env.httpCode = HTTP_CODE_OK → 0 < env.contentLength → env.canBegin = false →
      (performFirmwareUpdate env).writeCalled = false ∧
      (performFirmwareUpdate env).endCalled = false ∧
      (performFirmwareUpdate env).outcome = .insufficientSpace) := by
  unfold performFirmwareUpdate
  split_ifs <;> simp_all

/-- Witness for C4 at a failing `begin`. -/
theorem finalize_requires_begin_witness :
    (performFirmwareUpdate ⟨200, 100, false, 0, true, true⟩).outcome =
      .insufficientSpace :=
  ((finalize_requires_begin ⟨200, 100, false, 0, true, true⟩).2
      (by decide) (by decide) (by decide)).2.2

/-- Claim C5: when fewer bytes are written than declared, the shortfall
is logged but does not abort the attempt: `Update.end` is still invoked,
and the outcome is decided by `Update.end`/`Update.isFinished` alone. -/
theorem shortfall_logged_not_fatal (env : FirmwareEnv)
    (hok : env.httpCode = HTTP_CODE_OK) (hlen : 0 < env.contentLength)
    (hbegin : env.canBegin = true) (hshort : (env.written : Int) < env.contentLength) :
    (performFirmwareUpdate env).shortfallLogged = true ∧
    (performFirmwareUpdate env).endCalled = true ∧
    (performFirmwareUpdate env).outcome =
      (if env.endOk then (if env.isFinished then .success else .notFinished)
       else .finalizeFailed) := by
  unfold performFirmwareUpdate
  rw [if_pos hok, if_pos hlen, if_pos hbegin]
  have hne : ((env.written : Int) == env.contentLength) = false :=
    beq_eq_false_iff_ne.mpr (ne_of_lt hshort)
  split_ifs with h1 h2 <;> simp [hne]

/-- Witness for C5: 50 of 100 bytes written, finalize fails. -/
theorem shortfall_logged_not_fatal_witness :
    (performFirmwareUpdate ⟨200, 100, true, 50, false, false⟩).shortfallLogged = true :=
  (shortfall_logged_not_fatal ⟨200, 100, true, 50, false, false⟩
      (by decide) (by decide) (by decide) (by decide)).1

/-- A concrete firmware-fetch environment whose GET fails, used for
concrete cycle inputs where the download's own behaviour is irrelevant. -/
def fw404 : FirmwareEnv := ⟨404, 0, false, 0, false, false⟩

/-- Claim C6 counterexample: with the version GET returning OK and an
empty body against current version "1.0", the code does initiate a
firmware download and the result is not `checkFailed` — the empty body is
not treated as a check failure. -/
theorem empty_body_triggers_download_cex :
    (ota_task_cycle "1.0" ⟨200, "", fw404⟩).downloadAttempted = true ∧
    (ota_task_cycle "1.0" ⟨200, "", fw404⟩).outcome ≠ .checkFailed := by
  decide

/-- Claim C6 amended: with HTTP status OK, an empty response body is not
treated as `checkFailed`; it is trimmed (to the empty string) and
compared like any token, so a firmware download is initiated exactly when
the local current version is nonempty, and an empty local version makes
the empty body count as a match (`upToDate`). -/
theorem empty_body_compared_not_failed (cur : String) (env : CycleEnv)
    (hok : env.versionCode = HTTP_CODE_OK) (hbody : env.body = "") :
    ((ota_task_cycle cur env).outcome ≠ .checkFailed) ∧
    ((ota_task_cycle cur env).downloadAttempted = true ↔ cur ≠ "") ∧
    (cur = "" → (ota_task_cycle cur env).outcome = .upToDate) := by
  unfold ota_task_cycle
  rw [if_pos hok, hbody]
  have htrim : trimString "" = "" := rfl
  rw [htrim]
  by_cases h2 : ("" : String) = cur
  · rw [if_pos h2]
    simp [h2.symm]
  · rw [if_neg h2]
    have hcur : cur ≠ "" := fun h => h2 (Eq.symm h)
    simp [hcur]

/-- Witness for C6 amended: nonempty current version, empty body. -/
theorem empty_body_compared_not_failed_witness :
    (ota_task_cycle "1.0" ⟨200, "", ⟨200, 0, false, 0, false, false⟩⟩).downloadAttempted
      = true :=
  (empty_body_compared_not_failed "1.0" ⟨200, "", ⟨200, 0, false, 0, false, false⟩⟩
      (by decide) (by decide)).2.1.mpr (by decide)

/-- Claim C7: every outcome other than a successful finalize leaves
`ESP.restart` uncalled, so the infinite `for (;;)` loop reaches its next
iteration after the fixed delay; the only way iteration `n + 1` does not
run is that iteration `n` restarted the device after a successful
update. -/
theorem errors_swallowed_loop_resumes (cur : String) (envs : Nat → CycleEnv)
    (n : Nat) (hrun : cycleRuns cur envs n = true) :
    ((ota_task_cycle cur (envs n)).finalizeSucceeded = false →
      cycleRuns cur envs (n + 1) = true) ∧
    (cycleRuns cur envs (n + 1) = false →
      (ota_task_cycle cur (envs n)).restartCalled = true ∧
      (ota_task_cycle cur (envs n)).finalizeSucceeded = true) := by
  have hnext : cycleRuns cur envs (n + 1) =
      !(ota_task_cycle cur (envs n)).restartCalled := by
    simp [cycleRuns, hrun]
  constructor
  · intro hfs
    have hres : (ota_task_cycle cur (envs n)).restartCalled = false := by
      cases h : (ota_task_cycle cur (envs n)).restartCalled
      · rfl
      · rw [(ota_task_cycle_restart_iff cur (envs n)).mp h] at hfs
        exact absurd hfs (by decide)
    rw [hnext, hres]
    rfl
  · intro hstop
    have hres : (ota_task_cycle cur (envs n)).restartCalled = true := by
      cases h : (ota_task_cycle cur (envs n)).restartCalled
      · rw [hnext, h] at hstop
        exact absurd hstop (by decide)
      · rfl
    exact ⟨hres, (ota_task_cycle_restart_iff cur (envs n)).mp hres⟩

/-- Witness for C7: after a failed version check, the next cycle runs. -/
theorem errors_swallowed_loop_resumes_witness :
    cycleRuns "1.0" (fun _ => ⟨404, "", fw404⟩) 1 = true :=
  (errors_swallowed_loop_resumes "1.0" (fun _ => ⟨404, "", fw404⟩) 0
      (by decide)).1 (by decide)

/-- Claim C8: on every version request and every binary request, the
headers sent are exactly the three cache-defeating ones: `Cache-Control:
no-cache, no-store, must-revalidate`, `Pragma: no-cache`, `Expires: 0`. -/
theorem cache_headers_always_sent (cur : String) (cenv : CycleEnv)
    (fenv : FirmwareEnv) :
    (ota_task_cycle cur cenv).versionHeadersSent = cacheHeaders ∧
    (performFirmwareUpdate fenv).headersSent = cacheHeaders ∧
    ("Cache-Control", "no-cache, no-store, must-revalidate") ∈ cacheHeaders ∧
    ("Pragma", "no-cache") ∈ cacheHeaders ∧
    ("Expires", "0") ∈ cacheHeaders := by
  refine ⟨?_, ?_, by decide, by decide, by decide⟩
  · simp only [ota_task_cycle]
    split_ifs <;> rfl
  · simp only [performFirmwareUpdate]
    split_ifs <;> rfl

/-- Witness for C8 at a concrete cycle. -/
theorem cache_headers_always_sent_witness :
    (ota_task_cycle "1.0" ⟨200, "1.0", fw404⟩).versionHeadersSent = cacheHeaders :=
  (cache_headers_always_sent "1.0" ⟨200, "1.0", fw404⟩ fw404).1

/-- Claim C9: only the remote token is trimmed; the local current version
is compared verbatim, so a current version carrying surrounding
whitespace never equals any trimmed remote token, and with the version
GET returning OK a download is always initiated. -/
theorem local_version_not_trimmed (cur : String) (env : CycleEnv)
    (hcur : hasSurroundingWhitespace cur = true) :
    trimString env.body ≠ cur ∧
    (env.versionCode = HTTP_CODE_OK →
      (ota_task_cycle cur env).downloadAttempted = true) := by
  refine ⟨trimString_ne_of_surrounding cur hcur env.body, fun hok => ?_⟩
  unfold ota_task_cycle
  rw [if_pos hok, if_neg (trimString_ne_of_surrounding cur hcur env.body)]

/-- Witness for C9: current version " 1.0" with a leading blank never
matches, even when the remote token denotes the same version. -/
theorem local_version_not_trimmed_witness :
    (ota_task_cycle " 1.0" ⟨200, " 1.0", fw404⟩).downloadAttempted = true :=
  (local_version_not_trimmed " 1.0" ⟨200, " 1.0", fw404⟩ (by decide)).2 (by decide)

/-- Claim C10: when `Update.end()` returns true but `Update.isFinished()`
is false, no restart happens, the numeric `Update.getError()` diagnostic
is not logged (only that branch's text message is), the run ends on the
`notFinished` branch, and any cycle using this environment never
restarts, so the loop resumes at the next interval. -/
theorem end_ok_not_finished_quiet (env : FirmwareEnv)
    (hok : env.httpCode = HTTP_CODE_OK) (hlen : 0 < env.contentLength)
    (hbegin : env.canBegin = true) (hend : env.endOk = true)
    (hfin : env.isFinished = false) :
    (performFirmwareUpdate env).restartCalled = false ∧
    (performFirmwareUpdate env).diagnosticLogged = false ∧
    (performFirmwareUpdate env).outcome = .notFinished ∧
    (∀ cur vc body, (ota_task_cycle cur ⟨vc, body, env⟩).restartCalled = false) := by
  have hrun : performFirmwareUpdate env =
      { headersSent := cacheHeaders, beginCalled := true, writeCalled := true,
        shortfallLogged := !((env.written : Int) == env.contentLength),
        endCalled := true, diagnosticLogged := false,
        restartCalled := false, outcome := .notFinished } := by
    unfold performFirmwareUpdate
    rw [if_pos hok, if_pos hlen, if_pos hbegin, if_pos hend, if_neg (by simp [hfin])]
  refine ⟨by rw [hrun], by rw [hrun], by rw [hrun], fun cur vc body => ?_⟩
  simp only [ota_task_cycle]
  split_ifs <;> simp [hrun]

/-- Witness for C10 at a concrete unfinished update. -/
theorem end_ok_not_finished_quiet_witness :
    (performFirmwareUpdate ⟨200, 100, true, 100, true, false⟩).restartCalled = false :=
  (end_ok_not_finished_quiet ⟨200, 100, true, 100, true, false⟩
      (by decide) (by decide) (by decide) (by decide) (by decide)).1

end ESP32OTA
